import Mathlib

/-!
Verification of the CTViewer test-data generators
(`generate_simple_test.py` and `generate_test_data.py`).

Both scripts synthesize small 3-D volumes (gradient, sphere, checkerboard),
serialize them as flat byte streams and write a JSON metadata sidecar.
This file embeds the per-voxel value computations and the serialization
traversal of each generator as executable Lean definitions and proves the
spec's claims about them.

Serialization model: `generate_simple_test.py` appends bytes in explicit
nested loops `for z: for y: for x:`, so its stream lists the first loop
index slowest.  `generate_test_data.py` fills numpy arrays indexed
`volume[x, y, z]` and writes them with `tofile` in C (row-major) order,
so its stream lists the FIRST array axis (which that script calls `x`)
slowest and the last axis (`z`) fastest.  Both streams are instances of
one generic flattening `flat3 n1 n2 n3 g`, which lists `g i1 i2 i3` with
`i1` slowest and `i3` fastest, i.e. at flat position
`((i1 * n2) + i2) * n3 + i3`.
-/

/-- Generic triple-loop flattening: the element for indices `(i1, i2, i3)`
(`i1` slowest, `i3` fastest) sits at flat position `((i1*n2)+i2)*n3+i3`.
`generate_simple_test.py` instantiates it with loop order `z, y, x`;
the numpy `tofile` C-order streams of `generate_test_data.py` instantiate
it with array-axis order `x, y, z`. -/
def flat3 (n1 n2 n3 : Nat) (g : Nat → Nat → Nat → Nat) : List Nat :=
  (List.range n1).flatMap fun i1 =>
    (List.range n2).flatMap fun i2 =>
      (List.range n3).map fun i3 => g i1 i2 i3

/-- Length of a `flatMap` over `List.range` whose pieces all have length `L`. -/
lemma flatMap_range_length (g : Nat → List Nat) (L : Nat) :
    ∀ n, (∀ k, k < n → (g k).length = L) →
      ((List.range n).flatMap g).length = n * L := by
  intro n
  induction n with
  | zero => intro _; simp
  | succ n ih =>
    intro hL
    rw [List.range_succ, List.flatMap_append, List.length_append,
      ih (fun k hk => hL k (Nat.lt_succ_of_lt hk))]
    simp only [List.flatMap_cons, List.flatMap_nil, List.append_nil]
    rw [hL n (Nat.lt_succ_self n), Nat.succ_mul]

/-- Indexing a `flatMap` over `List.range` whose pieces all have length `L`:
position `i * L + j` falls in piece `i` at offset `j`. -/
lemma flatMap_range_getElem? (g : Nat → List Nat) (L : Nat) :
    ∀ n i j, (∀ k, k < n → (g k).length = L) → i < n → j < L →
      ((List.range n).flatMap g)[i * L + j]? = (g i)[j]? := by
  intro n
  induction n with
  | zero => intro i j _ hi _; exact absurd hi (Nat.not_lt_zero i)
  | succ n ih =>
    intro i j hL hi hj
    have hL' : ∀ k, k < n → (g k).length = L :=
      fun k hk => hL k (Nat.lt_succ_of_lt hk)
    have hA : ((List.range n).flatMap g).length = n * L :=
      flatMap_range_length g L n hL'
    rw [List.range_succ, List.flatMap_append]
    by_cases hin : i < n
    · have hlt : i * L + j < n * L := by
        have h1 : i * L + j < (i + 1) * L := by
          rw [Nat.succ_mul]; omega
        exact Nat.lt_of_lt_of_le h1 (Nat.mul_le_mul_right L hin)
      rw [List.getElem?_append_left (by rw [hA]; exact hlt)]
      exact ih i j hL' hin hj
    · have hieq : i = n := by omega
      subst hieq
      rw [List.getElem?_append_right (by rw [hA]; exact Nat.le_add_right _ _)]
      rw [hA, Nat.add_sub_cancel_left]
      simp only [List.flatMap_cons, List.flatMap_nil, List.append_nil]

/-- The total element count of `flat3` is the product of the three extents. -/
lemma flat3_length (n1 n2 n3 : Nat) (g : Nat → Nat → Nat → Nat) :
    (flat3 n1 n2 n3 g).length = n1 * (n2 * n3) := by
  refine flatMap_range_length _ (n2 * n3) n1 (fun i1 _ => ?_)
  refine flatMap_range_length _ n3 n2 (fun i2 _ => ?_)
  simp

/-- The element of `flat3` at flat position `((i1*n2)+i2)*n3+i3` is
`g i1 i2 i3`, for in-range indices. -/
lemma flat3_getElem? {n1 n2 n3 : Nat} (g : Nat → Nat → Nat → Nat)
    {i1 i2 i3 : Nat} (h1 : i1 < n1) (h2 : i2 < n2) (h3 : i3 < n3) :
    (flat3 n1 n2 n3 g)[((i1 * n2) + i2) * n3 + i3]? = some (g i1 i2 i3) := by
  have hidx : ((i1 * n2) + i2) * n3 + i3 = i1 * (n2 * n3) + (i2 * n3 + i3) := by
    ring
  rw [flat3, hidx]
  rw [flatMap_range_getElem? _ (n2 * n3) n1 i1 (i2 * n3 + i3)
      (fun i1 _ => flatMap_range_length _ n3 n2 (fun _ _ => by simp)) h1
      (by
        have h1' : i2 * n3 + i3 < (i2 + 1) * n3 := by rw [Nat.succ_mul]; omega
        exact Nat.lt_of_lt_of_le h1' (Nat.mul_le_mul_right n3 h2))]
  rw [flatMap_range_getElem? _ n3 n2 i2 i3 (fun _ _ => by simp) h2 h3]
  simp [List.getElem?_range h3]

/-- Every element of `flat3 n1 n2 n3 g` is `g i1 i2 i3` for some in-range
index triple. -/
lemma flat3_mem {n1 n2 n3 : Nat} {g : Nat → Nat → Nat → Nat} {v : Nat}
    (h : v ∈ flat3 n1 n2 n3 g) :
    ∃ i1 i2 i3, i1 < n1 ∧ i2 < n2 ∧ i3 < n3 ∧ v = g i1 i2 i3 := by
  simp only [flat3, List.mem_flatMap, List.mem_map, List.mem_range] at h
  obtain ⟨i1, h1, i2, h2, i3, h3, hv⟩ := h
  exact ⟨i1, i2, i3, h1, h2, h3, hv.symm⟩

/-! ## generate_simple_test.py -/

/-- Per-voxel value of `create_simple_test_volume` (line 27 of
`generate_simple_test.py`): `value = (z * 255) // (depth - 1)` with the
script's fixed `depth = 16`.  The value depends on `z` only. -/
def simpleTestVoxel (z : Nat) : Nat := (z * 255) / (16 - 1)

/-- The gradient expression of line 27 as a function of `depth`, with
Python's `ZeroDivisionError` modelled as `none` and Python's floor
division `//` as `Int.fdiv`.  The script calls it only with `depth = 16`;
there is no clamp on the divisor `depth - 1`. -/
def simpleGradientValue (depth z : Nat) : Option Int :=
  if (depth : Int) - 1 = 0 then none
  else some (Int.fdiv ((z : Int) * 255) ((depth : Int) - 1))

/-- Byte stream of `test-data/simple_test.raw`: loops `for z: for y: for x:`
(z slowest) appending `simpleTestVoxel z` for a 16x16x16 volume. -/
def simpleTestData : List Nat := flat3 16 16 16 fun z _y _x => simpleTestVoxel z

/-- Per-voxel value of the 8x8x8-block checkerboard, shared verbatim by
`create_checkerboard_test` (`generate_simple_test.py` lines 62-65) and
`create_test_volume_checker` (`generate_test_data.py` lines 85-89, where
the value stays 0 from `np.zeros` when the parity test fails):
`bx = (x // 8) % 2` etc., `255 if (bx + by + bz) % 2 == 0 else 0`. -/
def checkerVoxel (x y z : Nat) : Nat :=
  if ((x / 8) % 2 + (y / 8) % 2 + (z / 8) % 2) % 2 = 0 then 255 else 0

/-- Byte stream of `test-data/checker_test.raw`: loops `for z: for y: for x:`
(z slowest) over a 32x32x32 volume. -/
def checkerTestData : List Nat := flat3 32 32 32 fun z y x => checkerVoxel x y z

/-! ## generate_test_data.py

The numpy volumes are indexed `volume[x, y, z]` and written by `tofile`
in C (row-major) order, so in these streams the first array axis (`x`)
varies slowest and the last (`z`) fastest: the element for voxel
`(x, y, z)` sits at flat position `((x * height) + y) * depth + z`. -/

/-- Per-voxel value of `create_test_volume_uint8` (line 19 of
`generate_test_data.py`): `volume[:, :, z] = z * 4`, stored as uint8
(hence the `% 256`, which never truncates since `z < 64`). -/
def testVolumeUint8Voxel (z : Nat) : Nat := (z * 4) % 256

/-- Byte stream of `test_volume_uint8.raw`: C-order dump of the
64x64x64 array, first axis slowest, the gradient axis `z` fastest. -/
def testVolumeUint8Data : List Nat :=
  flat3 64 64 64 fun _x _y z => testVolumeUint8Voxel z

/-- Squared Euclidean distance of voxel `(x, y, z)` from the sphere center
`(16, 16, 16)` of `create_test_volume_uint16` (line 52 of
`generate_test_data.py` computes `dist = sqrt` of this quantity). -/
def sphereDistSq (x y z : Nat) : Int :=
  ((x : Int) - 16) ^ 2 + ((y : Int) - 16) ^ 2 + ((z : Int) - 16) ^ 2

/-- The least `n` with `144 * n^2 >= 4095^2 * m` exists (e.g. `n = 4095 * m`
works). -/
lemma sphereCeil_exists (m : Nat) : ∃ n, 16769025 * m ≤ 144 * n ^ 2 := by
  refine ⟨4095 * m, ?_⟩
  have h : m ≤ 144 * m ^ 2 := by nlinarith
  nlinarith

/-- `⌈4095 * sqrt m / 12⌉` computed in integer arithmetic: the least `n`
with `(12 n)^2 >= (4095)^2 * m` (see `sphereCeil_eq_ceil`). -/
def sphereCeil (m : Nat) : Nat := Nat.find (sphereCeil_exists m)

/-- Per-voxel value of `create_test_volume_uint16` (lines 52-54 of
`generate_test_data.py`):

  `if dist < radius: volume[x, y, z] = int((1 - dist/radius) * 4095)`

with `radius = 12` and `volume` initialized by `np.zeros`.  The guard
`dist < 12` is equivalent to `distSq < 144` (`sqrt` is exact on the
perfect square `144` and strictly monotone, and binary64 holds all the
integers involved exactly).  For `dist < radius` the assigned value is
`⌊4095 * (1 - sqrt distSq / 12)⌋ = 4095 - ⌈4095 * sqrt distSq / 12⌉`,
evaluated here in exact real arithmetic (the spec fixes continuous-space
distance semantics); `sphereVal_eq_floor` proves that identity. -/
def testVolumeUint16Voxel (x y z : Nat) : Nat :=
  if sphereDistSq x y z < 144 then
    4095 - sphereCeil (sphereDistSq x y z).toNat
  else 0

/-- Element stream of `test_volume_uint16.raw` before byte encoding:
C-order dump of the 32x32x32 uint16 array, first axis slowest. -/
def testVolumeUint16Elems : List Nat :=
  flat3 32 32 32 fun x y z => testVolumeUint16Voxel x y z

/-- Little-endian encoding of one uint16 element (numpy `tofile` with
`byteOrder` declared "little-endian"): low byte first. -/
def leBytes16 (v : Nat) : List Nat := [v % 256, (v / 256) % 256]

/-- Byte stream of `test_volume_uint16.raw`: each element contributes its
two little-endian bytes. -/
def testVolumeUint16Bytes : List Nat := testVolumeUint16Elems.flatMap leBytes16

/-- Byte stream of `test_volume_checker.raw`: C-order dump of the
64x64x64 checkerboard array (same per-voxel rule as the 32x32x32 one,
`block_size = 8`). -/
def testVolumeCheckerData : List Nat :=
  flat3 64 64 64 fun x y z => checkerVoxel x y z

/-! ## Metadata sidecars

The JSON sidecars are records with exactly the keys `dimensions`,
`dataType`, `byteOrder`, `spacing`, `description`; the structure fields
mirror those key names one-for-one.  Spacing values are the exact
decimal `1.0`, modelled in `ℚ`. -/

structure VolumeMetadata where
  dimensions : List Nat
  dataType : String
  byteOrder : String
  spacing : List ℚ
  description : String

/-- Element byte size implied by a `dataType` tag. -/
def dataTypeBytes (s : String) : Nat :=
  if s = "uint8" then 1 else if s = "uint16" then 2 else 0

/-- Sidecar `test-data/simple_test.json` (lines 35-41 of
`generate_simple_test.py`). -/
def simpleTestMetadata : VolumeMetadata :=
  ⟨[16, 16, 16], "uint8", "little-endian", [1, 1, 1],
    "Simple 16x16x16 gradient test volume"⟩

/-- Sidecar `test-data/checker_test.json` (lines 71-77 of
`generate_simple_test.py`). -/
def checkerTestMetadata : VolumeMetadata :=
  ⟨[32, 32, 32], "uint8", "little-endian", [1, 1, 1],
    "32x32x32 checkerboard pattern"⟩

/-- Sidecar `test_volume_uint8.json` (lines 25-31 of
`generate_test_data.py`). -/
def testVolumeUint8Metadata : VolumeMetadata :=
  ⟨[64, 64, 64], "uint8", "little-endian", [1, 1, 1],
    "Test gradient volume (uint8)"⟩

/-- Sidecar `test_volume_uint16.json` (lines 60-66 of
`generate_test_data.py`). -/
def testVolumeUint16Metadata : VolumeMetadata :=
  ⟨[32, 32, 32], "uint16", "little-endian", [1, 1, 1],
    "Test sphere volume (uint16)"⟩

/-- Sidecar `test_volume_checker.json` (lines 95-101 of
`generate_test_data.py`). -/
def testVolumeCheckerMetadata : VolumeMetadata :=
  ⟨[64, 64, 64], "uint8", "little-endian", [1, 1, 1],
    "3D checkerboard pattern"⟩

/-! ## Shared helper lemmas -/

/-- Length of a `flatMap` whose pieces all have the same length `L`. -/
lemma flatMap_const_length (g : Nat → List Nat) (L : Nat)
    (h : ∀ a, (g a).length = L) :
    ∀ l : List Nat, (l.flatMap g).length = l.length * L := by
  intro l
  induction l with
  | nil => simp
  | cons a l ih =>
    simp only [List.flatMap_cons, List.length_append, List.length_cons, ih, h a]
    rw [Nat.succ_mul]
    omega

/-- The sphere voxel value never exceeds 4095 (shared helper). -/
lemma testVolumeUint16Voxel_le (x y z : Nat) :
    testVolumeUint16Voxel x y z ≤ 4095 := by
  unfold testVolumeUint16Voxel
  split
  · exact Nat.sub_le _ _
  · exact Nat.zero_le _

/-! ## Claim theorems -/

/-- C6: for every (binary, metadata) pair of either generator, the
serialized byte length equals width x height x depth x element-byte-size,
and the product of the metadata's `dimensions` entries times the element
size implied by its `dataType` equals the byte length actually written. -/
theorem spec_c6 :
    (simpleTestData.length
        = 16 * 16 * 16 * dataTypeBytes simpleTestMetadata.dataType
      ∧ simpleTestMetadata.dimensions.prod
          * dataTypeBytes simpleTestMetadata.dataType = simpleTestData.length)
  ∧ (checkerTestData.length
        = 32 * 32 * 32 * dataTypeBytes checkerTestMetadata.dataType
      ∧ checkerTestMetadata.dimensions.prod
          * dataTypeBytes checkerTestMetadata.dataType = checkerTestData.length)
  ∧ (testVolumeUint8Data.length
        = 64 * 64 * 64 * dataTypeBytes testVolumeUint8Metadata.dataType
      ∧ testVolumeUint8Metadata.dimensions.prod
          * dataTypeBytes testVolumeUint8Metadata.dataType
          = testVolumeUint8Data.length)
  ∧ (testVolumeUint16Bytes.length
        = 32 * 32 * 32 * dataTypeBytes testVolumeUint16Metadata.dataType
      ∧ testVolumeUint16Metadata.dimensions.prod
          * dataTypeBytes testVolumeUint16Metadata.dataType
          = testVolumeUint16Bytes.length)
  ∧ (testVolumeCheckerData.length
        = 64 * 64 * 64 * dataTypeBytes testVolumeCheckerMetadata.dataType
      ∧ testVolumeCheckerMetadata.dimensions.prod
          * dataTypeBytes testVolumeCheckerMetadata.dataType
          = testVolumeCheckerData.length) := by
  have h16 : testVolumeUint16Bytes.length = 65536 := by
    rw [testVolumeUint16Bytes,
      flatMap_const_length leBytes16 2 (fun a => rfl) testVolumeUint16Elems,
      testVolumeUint16Elems, flat3_length]
  refine ⟨⟨?_, ?_⟩, ⟨?_, ?_⟩, ⟨?_, ?_⟩, ⟨?_, ?_⟩, ⟨?_, ?_⟩⟩ <;>
    simp [simpleTestData, checkerTestData, testVolumeUint8Data,
      testVolumeCheckerData, flat3_length, h16, simpleTestMetadata,
      checkerTestMetadata, testVolumeUint8Metadata, testVolumeUint16Metadata,
      testVolumeCheckerMetadata, dataTypeBytes]

/-- C7: the 16x16x16 uint8 gradient volume is exactly 4096 bytes; every
byte of the z = 0 slice is 0 and every byte of the z = 15 slice is 255. -/
theorem spec_c7 :
    simpleTestData.length = 4096
  ∧ (∀ x y : Nat, x < 16 → y < 16 →
      simpleTestData[((0 * 16) + y) * 16 + x]? = some 0)
  ∧ (∀ x y : Nat, x < 16 → y < 16 →
      simpleTestData[((15 * 16) + y) * 16 + x]? = some 255) := by
  refine ⟨?_, ?_, ?_⟩
  · rw [simpleTestData, flat3_length]
  · intro x y hx hy
    have h := flat3_getElem? (fun z _y _x => simpleTestVoxel z)
      (show 0 < 16 by norm_num) hy hx
    rw [simpleTestData, h]
    norm_num [simpleTestVoxel]
  · intro x y hx hy
    have h := flat3_getElem? (fun z _y _x => simpleTestVoxel z)
      (show 15 < 16 by norm_num) hy hx
    rw [simpleTestData, h]
    norm_num [simpleTestVoxel]

/-- C7 witness: concrete instances of the two slice statements. -/
theorem spec_c7_witness :
    simpleTestData[((0 * 16) + 5) * 16 + 7]? = some 0
  ∧ simpleTestData[((15 * 16) + 5) * 16 + 7]? = some 255 :=
  ⟨spec_c7.2.1 7 5 (by norm_num) (by norm_num),
    spec_c7.2.2 7 5 (by norm_num) (by norm_num)⟩

/-- C1 counterexample: in `generate_test_data.py`, voxel
`(x, y, z) = (0, 0, 1)` of the uint8 gradient volume has value
`testVolumeUint8Voxel 1 = 4`, but the byte at the flat position
`((z*height)+y)*width + x = ((1*64)+0)*64+0 = 4096` claimed for it is `0`
(it belongs to the array element `volume[1, 0, 0]`): numpy's C-order
`tofile` puts the FIRST array axis slowest, not the depth axis. -/
theorem spec_c1_counterexample :
    testVolumeUint8Data[((1 * 64) + 0) * 64 + 0]?
      ≠ some (testVolumeUint8Voxel 1) := by
  have h := flat3_getElem? (fun _x _y z => testVolumeUint8Voxel z)
    (show 1 < 64 by norm_num) (show 0 < 64 by norm_num)
    (show 0 < 64 by norm_num)
  rw [testVolumeUint8Data, h]
  decide

/-- C1 amended: `generate_simple_test.py` serializes with depth slowest and
width fastest, so the byte at `((z*16)+y)*16+x` holds voxel `(x, y, z)`;
`generate_test_data.py` serializes its numpy arrays `volume[x, y, z]` in
C order, so the element for voxel `(x, y, z)` is at `((x*h)+y)*d+z` — the
first code axis slowest and `z` fastest, the opposite traversal order. -/
theorem spec_c1_amended :
    (∀ x y z : Nat, x < 16 → y < 16 → z < 16 →
      simpleTestData[((z * 16) + y) * 16 + x]? = some (simpleTestVoxel z))
  ∧ (∀ x y z : Nat, x < 64 → y < 64 → z < 64 →
      testVolumeUint8Data[((x * 64) + y) * 64 + z]?
        = some (testVolumeUint8Voxel z))
  ∧ (∀ x y z : Nat, x < 32 → y < 32 → z < 32 →
      testVolumeUint16Elems[((x * 32) + y) * 32 + z]?
        = some (testVolumeUint16Voxel x y z)) := by
  refine ⟨?_, ?_, ?_⟩
  · intro x y z hx hy hz
    exact flat3_getElem? (fun z _y _x => simpleTestVoxel z) hz hy hx
  · intro x y z hx hy hz
    exact flat3_getElem? (fun _x _y z => testVolumeUint8Voxel z) hx hy hz
  · intro x y z hx hy hz
    exact flat3_getElem? (fun x y z => testVolumeUint16Voxel x y z) hx hy hz

/-- C1 witness: one concrete in-range instance of each serialization-order
statement. -/
theorem spec_c1_witness :
    simpleTestData[((2 * 16) + 1) * 16 + 3]? = some (simpleTestVoxel 2)
  ∧ testVolumeUint8Data[((5 * 64) + 4) * 64 + 3]?
      = some (testVolumeUint8Voxel 3)
  ∧ testVolumeUint16Elems[((16 * 32) + 16) * 32 + 16]?
      = some (testVolumeUint16Voxel 16 16 16) :=
  ⟨spec_c1_amended.1 3 1 2 (by norm_num) (by norm_num) (by norm_num),
    spec_c1_amended.2.1 5 4 3 (by norm_num) (by norm_num) (by norm_num),
    spec_c1_amended.2.2 16 16 16 (by norm_num) (by norm_num) (by norm_num)⟩

/-- C2 counterexample: in the 64x64x64 uint8 gradient the last z slice
(z = 63, e.g. voxel (0,0,63), flat position 63 in the C-order stream) has
value 252, not the maximum representable 255. -/
theorem spec_c2_counterexample :
    testVolumeUint8Data[((0 * 64) + 0) * 64 + 63]?
        = some (testVolumeUint8Voxel 63)
  ∧ testVolumeUint8Voxel 63 = 252 ∧ testVolumeUint8Voxel 63 ≠ 255 := by
  refine ⟨?_, by decide, by decide⟩
  exact flat3_getElem? (fun _x _y z => testVolumeUint8Voxel z)
    (show 0 < 64 by norm_num) (show 0 < 64 by norm_num)
    (show 63 < 64 by norm_num)

/-- C2 amended: both gradients are non-decreasing in z and start at 0;
the 16x16x16 gradient ends at the uint8 maximum 255 at z = 15, but the
64x64x64 gradient (`z * 4`) ends at 252 at z = 63, short of 255. -/
theorem spec_c2_amended :
    (∀ z z' : Nat, z ≤ z' → simpleTestVoxel z ≤ simpleTestVoxel z')
  ∧ simpleTestVoxel 0 = 0 ∧ simpleTestVoxel 15 = 255
  ∧ (∀ z z' : Nat, z ≤ z' → z' ≤ 63 →
      testVolumeUint8Voxel z ≤ testVolumeUint8Voxel z')
  ∧ testVolumeUint8Voxel 0 = 0 ∧ testVolumeUint8Voxel 63 = 252 := by
  refine ⟨?_, by decide, by decide, ?_, by decide, by decide⟩
  · intro z z' h
    simp only [simpleTestVoxel]
    omega
  · intro z z' h h'
    simp only [testVolumeUint8Voxel]
    omega

/-- C2 witness: concrete instances of the two monotonicity statements. -/
theorem spec_c2_witness :
    simpleTestVoxel 3 ≤ simpleTestVoxel 5
  ∧ testVolumeUint8Voxel 10 ≤ testVolumeUint8Voxel 20 :=
  ⟨spec_c2_amended.1 3 5 (by norm_num),
    spec_c2_amended.2.2.2.1 10 20 (by norm_num) (by norm_num)⟩

/-- C10: in both gradient volumes the voxel value depends on z alone, so
every constant-z slice of the serialized stream is uniform: two in-range
positions with the same z index hold equal bytes. -/
theorem spec_c10 :
    (∀ x y x' y' z : Nat, x < 16 → y < 16 → x' < 16 → y' < 16 → z < 16 →
      simpleTestData[((z * 16) + y) * 16 + x]?
        = simpleTestData[((z * 16) + y') * 16 + x']?)
  ∧ (∀ x y x' y' z : Nat, x < 64 → y < 64 → x' < 64 → y' < 64 → z < 64 →
      testVolumeUint8Data[((x * 64) + y) * 64 + z]?
        = testVolumeUint8Data[((x' * 64) + y') * 64 + z]?) := by
  constructor
  · intro x y x' y' z hx hy hx' hy' hz
    rw [simpleTestData,
      flat3_getElem? (fun z _y _x => simpleTestVoxel z) hz hy hx,
      flat3_getElem? (fun z _y _x => simpleTestVoxel z) hz hy' hx']
  · intro x y x' y' z hx hy hx' hy' hz
    rw [testVolumeUint8Data,
      flat3_getElem? (fun _x _y z => testVolumeUint8Voxel z) hx hy hz,
      flat3_getElem? (fun _x _y z => testVolumeUint8Voxel z) hx' hy' hz]

/-- C10 witness: concrete same-slice instances. -/
theorem spec_c10_witness :
    simpleTestData[((7 * 16) + 2) * 16 + 3]?
      = simpleTestData[((7 * 16) + 9) * 16 + 11]?
  ∧ testVolumeUint8Data[((2 * 64) + 3) * 64 + 40]?
      = testVolumeUint8Data[((60 * 64) + 61) * 64 + 40]? :=
  ⟨spec_c10.1 3 2 11 9 7 (by norm_num) (by norm_num) (by norm_num)
      (by norm_num) (by norm_num),
    spec_c10.2 2 3 60 61 40 (by norm_num) (by norm_num) (by norm_num)
      (by norm_num) (by norm_num)⟩

/-- C5: in both checkerboard volumes (32x32x32 and 64x64x64, block size 8),
voxels whose block-coordinate triples differ by exactly one in exactly one
axis have opposite binary values (one 255, the other 0); and both
serialized streams hold exactly these checkerboard values. -/
theorem spec_c5 :
    (∀ x y z x' y' z' : Nat,
      ((x' / 8 = x / 8 + 1 ∨ x / 8 = x' / 8 + 1) ∧ y' / 8 = y / 8
          ∧ z' / 8 = z / 8)
        ∨ (x' / 8 = x / 8 ∧ (y' / 8 = y / 8 + 1 ∨ y / 8 = y' / 8 + 1)
          ∧ z' / 8 = z / 8)
        ∨ (x' / 8 = x / 8 ∧ y' / 8 = y / 8
          ∧ (z' / 8 = z / 8 + 1 ∨ z / 8 = z' / 8 + 1)) →
      (checkerVoxel x y z = 255 ∧ checkerVoxel x' y' z' = 0)
        ∨ (checkerVoxel x y z = 0 ∧ checkerVoxel x' y' z' = 255))
  ∧ (∀ x y z : Nat, x < 32 → y < 32 → z < 32 →
      checkerTestData[((z * 32) + y) * 32 + x]? = some (checkerVoxel x y z))
  ∧ (∀ x y z : Nat, x < 64 → y < 64 → z < 64 →
      testVolumeCheckerData[((x * 64) + y) * 64 + z]?
        = some (checkerVoxel x y z)) := by
  refine ⟨?_, ?_, ?_⟩
  · intro x y z x' y' z' h
    simp only [checkerVoxel]
    split_ifs <;>
      first
        | (left; exact ⟨rfl, rfl⟩)
        | (right; exact ⟨rfl, rfl⟩)
        | omega
  · intro x y z hx hy hz
    exact flat3_getElem? (fun z y x => checkerVoxel x y z) hz hy hx
  · intro x y z hx hy hz
    exact flat3_getElem? (fun x y z => checkerVoxel x y z) hx hy hz

/-- C5 witness: voxels (0,0,0) and (8,0,0) sit in blocks (0,0,0) and
(1,0,0), adjacent along x, and indeed carry 255 and 0; plus a concrete
stream-indexing instance for each checkerboard file. -/
theorem spec_c5_witness :
    ((checkerVoxel 0 0 0 = 255 ∧ checkerVoxel 8 0 0 = 0)
      ∨ (checkerVoxel 0 0 0 = 0 ∧ checkerVoxel 8 0 0 = 255))
  ∧ checkerTestData[((3 * 32) + 2) * 32 + 1]? = some (checkerVoxel 1 2 3)
  ∧ testVolumeCheckerData[((9 * 64) + 8) * 64 + 7]?
      = some (checkerVoxel 9 8 7) :=
  ⟨spec_c5.1 0 0 0 8 0 0 (by decide),
    spec_c5.2.1 1 2 3 (by norm_num) (by norm_num) (by norm_num),
    spec_c5.2.2 9 8 7 (by norm_num) (by norm_num) (by norm_num)⟩

/-- C3: the gradient normalization of `generate_simple_test.py` line 27
divides by `depth - 1` with no clamp: modelled over a variable `depth`,
`depth = 1` yields `none` (Python raises `ZeroDivisionError`), refuting
the claimed guard.  At the script's hard-coded `depth = 16` the divisor is
15 and the computation agrees with `simpleTestVoxel`. -/
theorem spec_c3_bug :
    simpleGradientValue 1 0 = none
  ∧ (∀ z : Nat, simpleGradientValue 16 z = some ((simpleTestVoxel z : Nat) : Int)) := by
  constructor
  · decide
  · intro z
    simp only [simpleGradientValue, simpleTestVoxel]
    norm_num
    rw [Int.fdiv_eq_ediv _ (by norm_num)]

/-! ## Sphere value: exact characterization -/

/-- Defining property of `sphereCeil`. -/
lemma sphereCeil_spec (m : Nat) : 16769025 * m ≤ 144 * sphereCeil m ^ 2 :=
  Nat.find_spec (sphereCeil_exists m)

/-- Minimality of `sphereCeil`. -/
lemma sphereCeil_min {m k : Nat} (h : k < sphereCeil m) :
    ¬ 16769025 * m ≤ 144 * k ^ 2 :=
  Nat.find_min (sphereCeil_exists m) h

/-- Upper bounds from any satisfying point. -/
lemma sphereCeil_le {m n : Nat} (h : 16769025 * m ≤ 144 * n ^ 2) :
    sphereCeil m ≤ n :=
  Nat.find_min' (sphereCeil_exists m) h

/-- At the center (`distSq = 0`) the ceiling term vanishes. -/
lemma sphereCeil_zero : sphereCeil 0 = 0 :=
  Nat.le_zero.mp (sphereCeil_le (by norm_num))

/-- Inside the sphere the ceiling term stays within the scale. -/
lemma sphereCeil_le_4095 {m : Nat} (hm : m < 144) : sphereCeil m ≤ 4095 :=
  sphereCeil_le (by nlinarith)

/-- `4095 * sqrt m = sqrt (4095^2 * m)` in the reals. -/
lemma sphere_sqrt_scale (m : Nat) :
    (4095 : ℝ) * Real.sqrt m = Real.sqrt (16769025 * m) := by
  rw [show (16769025 : ℝ) = 4095 ^ 2 by norm_num,
    Real.sqrt_mul (by positivity) _, Real.sqrt_sq (by norm_num)]

/-- `sphereCeil m` is exactly `⌈4095 * sqrt m / 12⌉`: the integer search in
`sphereCeil` computes the ceiling appearing in
`int((1 - dist/radius) * 4095) = 4095 - ⌈4095 * dist / 12⌉`. -/
lemma sphereCeil_eq_ceil (m : Nat) :
    (sphereCeil m : ℤ) = ⌈(4095 : ℝ) * Real.sqrt ↑m / 12⌉ := by
  symm
  rw [Int.ceil_eq_iff]
  constructor
  · rcases Nat.eq_zero_or_pos (sphereCeil m) with h0 | hpos
    · rw [h0]
      have h1 : (0 : ℝ) ≤ 4095 * Real.sqrt ↑m / 12 := by positivity
      push_cast
      linarith
    · obtain ⟨c, hC⟩ : ∃ c, sphereCeil m = c + 1 :=
        ⟨sphereCeil m - 1, by omega⟩
      have hml := sphereCeil_min (m := m) (k := c) (by omega)
      have hlt : 144 * c ^ 2 < 16769025 * m := by omega
      have hltR : 144 * (c : ℝ) ^ 2 < 16769025 * (m : ℝ) := by
        exact_mod_cast hlt
      rw [hC, sphere_sqrt_scale]
      have hgoal : (c : ℝ) < Real.sqrt (16769025 * ↑m) / 12 := by
        rw [lt_div_iff₀ (by norm_num : (0 : ℝ) < 12)]
        exact (Real.lt_sqrt (by positivity)).mpr (by nlinarith)
      push_cast
      linarith
  · have hspec := sphereCeil_spec m
    have hspecR : 16769025 * (m : ℝ) ≤ 144 * (sphereCeil m : ℝ) ^ 2 := by
      exact_mod_cast hspec
    rw [sphere_sqrt_scale, div_le_iff₀ (by norm_num : (0 : ℝ) < 12)]
    push_cast
    exact Real.sqrt_le_iff.mpr ⟨by positivity, by nlinarith⟩

/-- Inside the sphere, `4095 - sphereCeil distSq` is exactly the floor of
the continuous expression `(1 - sqrt distSq / 12) * 4095` that line 54 of
`generate_test_data.py` truncates with `int(...)`. -/
lemma sphereVal_eq_floor {m : Nat} (hm : m < 144) :
    ((4095 - sphereCeil m : Nat) : ℤ)
      = ⌊(1 - Real.sqrt ↑m / 12) * 4095⌋ := by
  have hle := sphereCeil_le_4095 hm
  have hcast : ((4095 - sphereCeil m : Nat) : ℤ) = 4095 - (sphereCeil m : ℤ) := by
    omega
  have hub : (4095 : ℝ) * Real.sqrt ↑m / 12 ≤ ((sphereCeil m : ℤ) : ℝ) := by
    rw [sphereCeil_eq_ceil]
    exact Int.le_ceil _
  have hlb : ((sphereCeil m : ℤ) : ℝ) < 4095 * Real.sqrt ↑m / 12 + 1 := by
    rw [sphereCeil_eq_ceil]
    exact Int.ceil_lt_add_one _
  rw [hcast, eq_comm, Int.floor_eq_iff]
  push_cast at hub hlb ⊢
  constructor
  · nlinarith [Real.sqrt_nonneg (m : ℝ)]
  · nlinarith [Real.sqrt_nonneg (m : ℝ)]

/-- The squared distance from the center is non-negative. -/
lemma sphereDistSq_nonneg (x y z : Nat) : 0 ≤ sphereDistSq x y z := by
  unfold sphereDistSq
  positivity

/-- C4: in the 32x32x32 uint16 sphere volume, every voxel at squared
distance >= 144 (i.e. distance >= radius 12, including the boundary — the
comparison in the code is the strict `dist < radius`) is 0; the center
voxel is strictly positive; and every interior voxel carries exactly the
integer truncation of the continuous value `(1 - dist/radius) * 4095`. -/
theorem spec_c4 :
    (∀ x y z : Nat, 144 ≤ sphereDistSq x y z → testVolumeUint16Voxel x y z = 0)
  ∧ (∀ x y z : Nat, sphereDistSq x y z = 0 → 0 < testVolumeUint16Voxel x y z)
  ∧ (∀ x y z : Nat, sphereDistSq x y z < 144 →
      ((testVolumeUint16Voxel x y z : Nat) : ℤ)
        = ⌊(1 - Real.sqrt ((sphereDistSq x y z).toNat : ℝ) / 12) * 4095⌋) := by
  refine ⟨?_, ?_, ?_⟩
  · intro x y z h
    unfold testVolumeUint16Voxel
    rw [if_neg (not_lt.mpr h)]
  · intro x y z h
    simp only [testVolumeUint16Voxel, h]
    norm_num [sphereCeil_zero]
  · intro x y z h
    have hnn := sphereDistSq_nonneg x y z
    have htn : (sphereDistSq x y z).toNat < 144 := by omega
    unfold testVolumeUint16Voxel
    rw [if_pos h]
    exact sphereVal_eq_floor htn

/-- C4 witness: the boundary voxel (16,16,28) sits exactly at distance 12
and is 0 (strict comparison), and the center voxel (16,16,16) is
positive. -/
theorem spec_c4_witness :
    (144 ≤ sphereDistSq 16 16 28 ∧ testVolumeUint16Voxel 16 16 28 = 0)
  ∧ (sphereDistSq 16 16 16 = 0 ∧ 0 < testVolumeUint16Voxel 16 16 16) :=
  ⟨⟨by decide, spec_c4.1 16 16 28 (by decide)⟩,
    ⟨by decide, spec_c4.2.1 16 16 16 (by decide)⟩⟩

/-- C9: the uint16 sphere generator never produces a value above 4095,
although the element type could represent values up to 65535. -/
theorem spec_c9 : ∀ x y z : Nat, testVolumeUint16Voxel x y z ≤ 4095 :=
  fun x y z => testVolumeUint16Voxel_le x y z

/-- C8: every metadata sidecar has exactly the fields of `VolumeMetadata`
(the structure mirrors the JSON keys `dimensions`, `dataType`,
`byteOrder`, `spacing`, `description` one-for-one): `dimensions` is the
3-integer extent list, `dataType` is "uint8" or "uint16" and matches the
element range of the binary written next to it, `byteOrder` is always
"little-endian", `spacing` is the 3-float list `[1.0, 1.0, 1.0]`, and
`description` is a free-text string. -/
theorem spec_c8 :
    (simpleTestMetadata.dimensions = [16, 16, 16]
      ∧ simpleTestMetadata.dataType = "uint8"
      ∧ simpleTestMetadata.byteOrder = "little-endian"
      ∧ simpleTestMetadata.spacing = [1, 1, 1]
      ∧ (∀ v ∈ simpleTestData, v < 256))
  ∧ (checkerTestMetadata.dimensions = [32, 32, 32]
      ∧ checkerTestMetadata.dataType = "uint8"
      ∧ checkerTestMetadata.byteOrder = "little-endian"
      ∧ checkerTestMetadata.spacing = [1, 1, 1]
      ∧ (∀ v ∈ checkerTestData, v < 256))
  ∧ (testVolumeUint8Metadata.dimensions = [64, 64, 64]
      ∧ testVolumeUint8Metadata.dataType = "uint8"
      ∧ testVolumeUint8Metadata.byteOrder = "little-endian"
      ∧ testVolumeUint8Metadata.spacing = [1, 1, 1]
      ∧ (∀ v ∈ testVolumeUint8Data, v < 256))
  ∧ (testVolumeUint16Metadata.dimensions = [32, 32, 32]
      ∧ testVolumeUint16Metadata.dataType = "uint16"
      ∧ testVolumeUint16Metadata.byteOrder = "little-endian"
      ∧ testVolumeUint16Metadata.spacing = [1, 1, 1]
      ∧ (∀ v ∈ testVolumeUint16Elems, v < 65536))
  ∧ (testVolumeCheckerMetadata.dimensions = [64, 64, 64]
      ∧ testVolumeCheckerMetadata.dataType = "uint8"
      ∧ testVolumeCheckerMetadata.byteOrder = "little-endian"
      ∧ testVolumeCheckerMetadata.spacing = [1, 1, 1]
      ∧ (∀ v ∈ testVolumeCheckerData, v < 256)) := by
  have hchecker : ∀ x y z : Nat, checkerVoxel x y z < 256 := by
    intro x y z
    unfold checkerVoxel
    split <;> norm_num
  refine ⟨⟨rfl, rfl, rfl, rfl, ?_⟩, ⟨rfl, rfl, rfl, rfl, ?_⟩,
    ⟨rfl, rfl, rfl, rfl, ?_⟩, ⟨rfl, rfl, rfl, rfl, ?_⟩,
    ⟨rfl, rfl, rfl, rfl, ?_⟩⟩
  · intro v hv
    obtain ⟨z, y, x, hz, _, _, rfl⟩ := flat3_mem hv
    simp only [simpleTestVoxel]
    omega
  · intro v hv
    obtain ⟨z, y, x, _, _, _, rfl⟩ := flat3_mem hv
    exact hchecker x y z
  · intro v hv
    obtain ⟨x, y, z, _, _, hz, rfl⟩ := flat3_mem hv
    exact Nat.mod_lt _ (by norm_num)
  · intro v hv
    obtain ⟨x, y, z, _, _, _, rfl⟩ := flat3_mem hv
    exact Nat.lt_of_le_of_lt (testVolumeUint16Voxel_le x y z) (by norm_num)
  · intro v hv
    obtain ⟨x, y, z, _, _, _, rfl⟩ := flat3_mem hv
    exact hchecker x y z

/-- C8 witness: the first byte of the simple gradient file is 0, a member
of the stream, and is indeed below 256. -/
theorem spec_c8_witness : (0 : Nat) ∈ simpleTestData ∧ (0 : Nat) < 256 := by
  have hm : (0 : Nat) ∈ simpleTestData := by decide
  exact ⟨hm, spec_c8.1.2.2.2.2 0 hm⟩
